import Mathlib

/-!
Verification of tap-tally's extraction logic: the partition resolver and the
paginated fetch loop described in the specification, embedded from
`tap_tally/streams.py`, `tap_tally/client.py` and `tap_tally/tap.py`.

The connector is built on the singer-sdk framework, whose runtime (the HTTP
fetch loop, the default paginator, the transport that attaches the
authenticator) is an external dependency not present in the repository; those
parts are modelled from the specification and carry doc comments starting
`Modelled from the spec:`. Everything else is translated directly from the
source.
-/

set_option autoImplicit false

namespace TapTally

/-- A query-parameter value: the streams put numbers (`limit`, `page`) and
strings (`filter`) into the request parameter dict. -/
inductive PVal where
  | nat (n : Nat)
  | str (s : String)
deriving DecidableEq

/-- Request query parameters, as an ordered association list mirroring the
Python `dict` built by `get_url_params` (keys are inserted at most once). -/
abbrev Params := List (String × PVal)

/-- First value bound to a key, mirroring Python `dict` lookup. -/
def lookupKey (k : String) : Params → Option PVal
  | [] => none
  | (k', v) :: rest => if k' = k then some v else lookupKey k rest

/-- Paginator chosen by a stream's `get_new_paginator`:
`pageNumber s` is `BasePageNumberPaginator(start_value=s)`; `singlePage` is
the framework default used by streams that do not override
`get_new_paginator` (modelled from the spec: such resources perform exactly
one request and terminate). -/
inductive Paginator where
  | singlePage
  | pageNumber (startValue : Nat)
deriving DecidableEq

/-- A partition context: the single-key mapping
`\x7borganizationId: id\x7d` produced by `_OrganizationStream.partitions`. -/
structure Partition where
  organizationId : String
deriving DecidableEq

/-- The connector configuration surface (`tap.py`): `api_key` and
`organization_ids` (default `[]`). -/
structure Config where
  api_key : String
  organization_ids : List String
deriving DecidableEq

/-- Authentication attached to a request. -/
inductive Auth where
  | bearer (token : String)
deriving DecidableEq

/-- An HTTP response as the partition resolver consumes it: a status code and
a JSON-object body (string fields only, which is all the resolver reads). -/
structure HttpResponse where
  status : Nat
  body : List (String × String)
deriving DecidableEq

/-- A request issued by the partition resolver. -/
structure ReqDesc where
  method : String
  url : String
  params : Params
  auth : Auth
deriving DecidableEq

/-- Errors the partition resolver can raise: an HTTP error from
`raise_for_status`, or a `KeyError` reading `me["organizationId"]`. -/
inductive PartError where
  | httpStatus (status : Nat)
  | missingKey (key : String)
deriving DecidableEq

/-! ## Base stream (`client.py`) -/

/-- `TallyStream.url_base`. -/
def TallyStream.url_base : String := "https://api.tally.so"

/-- `TallyStream.records_jsonpath` default. -/
def TallyStream.records_jsonpath : String := "$[*]"

/-- `TallyStream.authenticator`: a bearer-token authenticator over the
`api_key` configuration value. -/
def TallyStream.authenticator (cfg : Config) : Auth := .bearer cfg.api_key

/-- Modelled from the spec: the framework's base `get_url_params` contributes
no parameters; each stream adds its declared static params and the page
token on top of it. -/
def TallyStream.get_url_params (_tok : Option Nat) : Params := []

/-- Modelled from the spec: the transport attaches the stream's authenticator
to every request the connector issues (the lookup call "uses the same
authenticator as all other calls"). -/
def sentAuth (cfg : Config) : Auth := TallyStream.authenticator cfg

/-! ## Stream declarations (`streams.py`) -/

namespace UsersStream

def path : String := "/organizations/{organizationId}/users"

/-- Modelled from the spec: no `get_new_paginator` override, so the framework
default applies — non-paginated resources perform exactly one request per
partition. -/
def get_new_paginator : Paginator := .singlePage

/-- No `get_url_params` override: the base parameters. -/
def get_url_params : Option Nat → Params := TallyStream.get_url_params

end UsersStream

namespace InvitesStream

def path : String := "/organizations/{organizationId}/invites"

/-- Modelled from the spec: no `get_new_paginator` override, so the framework
default applies — non-paginated resources perform exactly one request per
partition. -/
def get_new_paginator : Paginator := .singlePage

/-- No `get_url_params` override: the base parameters. -/
def get_url_params : Option Nat → Params := TallyStream.get_url_params

end InvitesStream

namespace FormsStream

def PAGE_SIZE : Nat := 500

def records_jsonpath : String := "$.items[*]"

def path : String := "/forms"

def get_new_paginator : Paginator := .pageNumber 1

/-- `FormsStream.get_url_params`: base params, then `limit = PAGE_SIZE`, then
`page = next_page_token` when the token is not `None`. -/
def get_url_params (next_page_token : Option Nat) : Params :=
  let params := TallyStream.get_url_params next_page_token ++ [("limit", PVal.nat PAGE_SIZE)]
  match next_page_token with
  | some t => params ++ [("page", PVal.nat t)]
  | none => params

end FormsStream

namespace QuestionsStream

def records_jsonpath : String := "$.questions[*]"

def path : String := "/forms/{formId}/questions"

/-- Modelled from the spec: no `get_new_paginator` override, so the framework
default applies — a single request per parent record. -/
def get_new_paginator : Paginator := .singlePage

/-- No `get_url_params` override: the base parameters. -/
def get_url_params : Option Nat → Params := TallyStream.get_url_params

/-- Modelled from the spec: the path template is filled from the parent form
record's id. -/
def resolvePath (formId : String) : String := "/forms/" ++ formId ++ "/questions"

end QuestionsStream

namespace SubmissionsStream

def SUBMISSION_FILTER : String := "all"

def records_jsonpath : String := "$.submissions[*]"

def path : String := "/forms/{formId}/submissions"

def get_new_paginator : Paginator := .pageNumber 1

/-- `SubmissionsStream.get_url_params`: base params, then
`filter = SUBMISSION_FILTER`, then `page = next_page_token` when the token
is not `None`. -/
def get_url_params (next_page_token : Option Nat) : Params :=
  let params := TallyStream.get_url_params next_page_token ++
    [("filter", PVal.str SUBMISSION_FILTER)]
  match next_page_token with
  | some t => params ++ [("page", PVal.nat t)]
  | none => params

end SubmissionsStream

namespace WorkspacesStream

def records_jsonpath : String := "$.items[*]"

def path : String := "/workspaces"

def get_new_paginator : Paginator := .pageNumber 1

/-- `WorkspacesStream.get_url_params`: base params, then
`page = next_page_token` when the token is not `None`. -/
def get_url_params (next_page_token : Option Nat) : Params :=
  let params := TallyStream.get_url_params next_page_token
  match next_page_token with
  | some t => params ++ [("page", PVal.nat t)]
  | none => params

end WorkspacesStream

namespace WebhooksStream

def PAGE_SIZE : Nat := 100

def records_jsonpath : String := "$.webhooks[*]"

def path : String := "/webhooks"

def get_new_paginator : Paginator := .pageNumber 1

/-- `WebhooksStream.get_url_params`: base params, then `limit = PAGE_SIZE`,
then `page = next_page_token` when the token is not `None`. -/
def get_url_params (next_page_token : Option Nat) : Params :=
  let params := TallyStream.get_url_params next_page_token ++ [("limit", PVal.nat PAGE_SIZE)]
  match next_page_token with
  | some t => params ++ [("page", PVal.nat t)]
  | none => params

end WebhooksStream

/-! ## The paginated fetch loop

Modelled from the spec, which specifies the framework's loop: starting at the
initial token, each step builds parameters (the page token omitted when it
equals the initial value — page "1" is implicit), issues the request, extracts
records, stops at a page with zero records, and otherwise emits the records
and increments the token by 1.

The loop is parameterised by the mocked server `pages`, mapping a page number
to the record sequence the resource's extraction pointer yields on that
page's response. `fuel` bounds the iteration so the function is total; every
theorem requires only that the fuel covers the mocked page sequence, so the
result is independent of any extra fuel. -/

/-- One fetch sequence of the page-number paginator starting from
`startValue`, currently at `token`. Returns the issued requests — each the
pair of the page number served and the query parameters sent — and the
emitted records in order. -/
def pageLoop {α : Type} (gp : Option Nat → Params) (pages : Nat → List α)
    (startValue : Nat) : Nat → Nat → List (Nat × Params) × List α
  | 0, _ => ([], [])
  | fuel + 1, token =>
    let tok : Option Nat := if token = startValue then none else some token
    let req : Nat × Params := (token, gp tok)
    let recs := pages token
    if recs.isEmpty then ([req], [])
    else
      let rest := pageLoop gp pages startValue fuel (token + 1)
      (req :: rest.1, recs ++ rest.2)

/-- One full fetch sequence for a stream with the given paginator. A
single-page stream issues exactly one request (no page-token parameter) and
emits whatever the response extracts; a page-number stream runs `pageLoop`
from its start value. -/
def runFetch {α : Type} (gp : Option Nat → Params) (pages : Nat → List α) :
    Paginator → Nat → List (Nat × Params) × List α
  | .singlePage, _ => ([(1, gp none)], pages 1)
  | .pageNumber s, fuel => pageLoop gp pages s fuel s

/-- A mocked page sequence: page `k` (1-based) yields the `k-1`-th record
list, and every later page is empty. -/
def mockPages {α : Type} (cs : List (List α)) (k : Nat) : List α :=
  cs.getD (k - 1) []

/-! ## The partition resolver (`streams.py`, `_OrganizationStream.partitions`) -/

/-- `requests.Response.raise_for_status` as the spec uses it: modelled from
the spec, a non-2xx response aborts the resolver with an HTTP error. -/
def raise_for_status (r : HttpResponse) : Except PartError Unit :=
  if 200 ≤ r.status ∧ r.status < 300 then .ok () else .error (.httpStatus r.status)

/-- The self-lookup request: `GET {url_base}/users/me`, no query parameters,
sent through the transport with the stream's authenticator. -/
def usersMeRequest (cfg : Config) : ReqDesc :=
  { method := "GET"
    url := TallyStream.url_base ++ "/users/me"
    params := []
    auth := sentAuth cfg }

/-- `_OrganizationStream.partitions`: if `organization_ids` is non-empty,
return one partition per configured id; otherwise issue the `/users/me`
lookup, check its status, read `organizationId` from the body, and return
the single resulting partition. The first component lists the HTTP requests
issued. -/
def partitions (cfg : Config) (resp : HttpResponse) :
    List ReqDesc × Except PartError (List Partition) :=
  let org_ids := cfg.organization_ids
  if org_ids.isEmpty then
    ([usersMeRequest cfg],
      match raise_for_status resp with
      | .error e => .error e
      | .ok () =>
        match resp.body.lookup "organizationId" with
        | none => .error (.missingKey "organizationId")
        | some oid => .ok [{ organizationId := oid }])
  else
    ([], .ok (org_ids.map (fun oid => { organizationId := oid })))

/-- `functools.cached_property` semantics on one stream instance: a cached
value is returned with no request; otherwise the resolver runs, and its
result is stored only when it succeeds (a raised error stores nothing). The
result is the requests issued, the outcome, and the instance's cache
afterwards. -/
def cachedPartitions (cfg : Config) (resp : HttpResponse) :
    Option (List Partition) →
      List ReqDesc × Except PartError (List Partition) × Option (List Partition)
  | some ps => ([], .ok ps, some ps)
  | none =>
    let r := partitions cfg resp
    match r.2 with
    | .ok ps => (r.1, .ok ps, some ps)
    | .error e => (r.1, .error e, none)

/-- `TapTally.discover_streams` creates each stream as a fresh instance; the
organization-scoped ones (users, invites, forms) therefore each start with an
empty `cached_property` slot of their own. -/
def discoveredOrgStreamCaches : List (Option (List Partition)) := [none, none, none]

/-- The `/users/me`-relevant requests of one sync run: each discovered
organization-scoped stream instance resolves its own `partitions` once. -/
def runOrgPartitionRequests (cfg : Config) (resp : HttpResponse) : List ReqDesc :=
  (discoveredOrgStreamCaches.map (fun c => (cachedPartitions cfg resp c).1)).flatten

end TapTally

namespace TapTally

/-! ## Fetch-loop lemmas -/

/-- The loop only reads pages at or beyond the current token. -/
theorem pageLoop_congr {α : Type} (gp : Option Nat → Params) (f g : Nat → List α)
    (s : Nat) :
    ∀ (fuel t : Nat), (∀ k, t ≤ k → f k = g k) →
      pageLoop gp f s fuel t = pageLoop gp g s fuel t := by
  intro fuel
  induction fuel with
  | zero => intro t _; rfl
  | succ n ih =>
    intro t h
    simp only [pageLoop]
    rw [h t le_rfl, ih (t + 1) (fun k hk => h k (le_trans (Nat.le_succ t) hk))]

/-- Full characterization of the loop on a mocked page sequence whose listed
pages are all non-empty: one request per listed page plus one for the first
empty page, with consecutive page numbers from the start token, the page
parameter omitted exactly when the token equals the paginator's start value,
and the records flattened in page order. -/
theorem pageLoop_mock_eq {α : Type} (gp : Option Nat → Params) (s : Nat) :
    ∀ (cs : List (List α)) (fuel t : Nat), (∀ l ∈ cs, l ≠ []) → cs.length + 1 ≤ fuel →
      pageLoop gp (fun k => cs.getD (k - t) []) s fuel t =
        ((List.range' t (cs.length + 1)).map
          (fun k => (k, gp (if k = s then none else some k))), cs.flatten) := by
  intro cs
  induction cs with
  | nil =>
    intro fuel t _ hf
    match fuel, hf with
    | fuel + 1, _ =>
      simp [pageLoop, List.range']
  | cons c cs ih =>
    intro fuel t h hf
    match fuel, hf with
    | fuel + 1, hf =>
      have hc : c.isEmpty = false := by
        cases c with
        | nil => exact absurd rfl (h [] (by simp))
        | cons a l => rfl
      have hstep : pageLoop gp (fun k => (c :: cs).getD (k - t) []) s fuel (t + 1)
          = pageLoop gp (fun k => cs.getD (k - (t + 1)) []) s fuel (t + 1) := by
        apply pageLoop_congr
        intro k hk
        have hk' : k - t = (k - (t + 1)) + 1 := by omega
        rw [hk', List.getD_cons_succ]
      simp only [pageLoop, Nat.sub_self, List.getD_cons_zero, hc]
      rw [hstep, ih fuel (t + 1) (fun l hl => h l (List.mem_cons_of_mem c hl))
        (by simp only [List.length_cons] at hf; omega)]
      simp [List.range'_succ]

end TapTally

namespace TapTally

/-! ## Claim theorems -/

/-- C1: For any paginated resource (forms, submissions, workspaces, webhooks
— all of which use the page-number paginator starting at 1), given a mocked
page sequence whose per-page extracted record counts are `[c0, ..., 0]`, the
fetch loop issues exactly one request per page in the sequence, emits exactly
`sum(c0..c_(n-1))` records ordered by page then by extraction order within
each page, increments the page token by 1 after every page with at least one
record (the requested page numbers are consecutive from 1), and terminates
at the first page that yields zero records. -/
theorem fetch_loop_page_sequence :
    FormsStream.get_new_paginator = Paginator.pageNumber 1 ∧
    SubmissionsStream.get_new_paginator = Paginator.pageNumber 1 ∧
    WorkspacesStream.get_new_paginator = Paginator.pageNumber 1 ∧
    WebhooksStream.get_new_paginator = Paginator.pageNumber 1 ∧
    ∀ (α : Type) (gp : Option Nat → Params) (cs : List (List α)) (fuel : Nat),
      (∀ l ∈ cs, l ≠ []) → cs.length + 1 ≤ fuel →
      (runFetch gp (mockPages cs) (Paginator.pageNumber 1) fuel).1.map Prod.fst =
        List.range' 1 (cs.length + 1) ∧
      (runFetch gp (mockPages cs) (Paginator.pageNumber 1) fuel).1.length = cs.length + 1 ∧
      (runFetch gp (mockPages cs) (Paginator.pageNumber 1) fuel).2 = cs.flatten ∧
      (runFetch gp (mockPages cs) (Paginator.pageNumber 1) fuel).2.length =
        (cs.map List.length).sum := by
  refine ⟨rfl, rfl, rfl, rfl, ?_⟩
  intro α gp cs fuel h hf
  have key : runFetch gp (mockPages cs) (Paginator.pageNumber 1) fuel =
      ((List.range' 1 (cs.length + 1)).map
        (fun k => (k, gp (if k = 1 then none else some k))), cs.flatten) := by
    show pageLoop gp (mockPages cs) 1 fuel 1 = _
    exact pageLoop_mock_eq gp 1 cs fuel 1 h hf
  rw [key]
  refine ⟨?_, ?_, rfl, ?_⟩
  · dsimp only
    rw [List.map_map, show (Prod.fst ∘ fun k => (k, gp (if k = 1 then none else some k))) =
      (fun k : Nat => k) from rfl]
    simp
  · simp
  · simp

/-- Witness for C1: two non-empty pages then an empty one — three requests
for pages 1, 2, 3 and the three records in page order. -/
theorem fetch_loop_page_sequence_witness :
    (runFetch (fun _ => []) (mockPages [[10], [20, 30]]) (Paginator.pageNumber 1) 3).1.map
        Prod.fst = [1, 2, 3] ∧
    (runFetch (fun _ => []) (mockPages [[10], [20, 30]]) (Paginator.pageNumber 1) 3).2 =
        [10, 20, 30] := by
  have h := fetch_loop_page_sequence.2.2.2.2 Nat (fun _ => []) [[10], [20, 30]] 3
    (by decide) (by decide)
  exact ⟨by simpa using h.1, by simpa using h.2.2.1⟩

end TapTally

namespace TapTally

/-- C4: the very first request of a paginated fetch sequence omits the
page-token query parameter (the token equals the initial value 1, and the
loop passes `None` exactly then, which each stream's `get_url_params` turns
into an absent `page` key), and every subsequent request includes `page` set
to the current token. Stated for all four paginated streams plus the
loop-level parameter trace. -/
theorem page_param_presence :
    lookupKey "page" (FormsStream.get_url_params none) = none ∧
    lookupKey "page" (SubmissionsStream.get_url_params none) = none ∧
    lookupKey "page" (WorkspacesStream.get_url_params none) = none ∧
    lookupKey "page" (WebhooksStream.get_url_params none) = none ∧
    (∀ t : Nat, lookupKey "page" (FormsStream.get_url_params (some t)) = some (PVal.nat t)) ∧
    (∀ t : Nat, lookupKey "page" (SubmissionsStream.get_url_params (some t)) = some (PVal.nat t)) ∧
    (∀ t : Nat, lookupKey "page" (WorkspacesStream.get_url_params (some t)) = some (PVal.nat t)) ∧
    (∀ t : Nat, lookupKey "page" (WebhooksStream.get_url_params (some t)) = some (PVal.nat t)) ∧
    ∀ (α : Type) (gp : Option Nat → Params) (cs : List (List α)) (fuel : Nat),
      (∀ l ∈ cs, l ≠ []) → cs.length + 1 ≤ fuel →
      (runFetch gp (mockPages cs) (Paginator.pageNumber 1) fuel).1.map Prod.snd =
        (List.range' 1 (cs.length + 1)).map (fun k => gp (if k = 1 then none else some k)) := by
  refine ⟨?_, ?_, ?_, ?_, ?_, ?_, ?_, ?_, ?_⟩
  · simp [lookupKey, FormsStream.get_url_params, TallyStream.get_url_params]
  · simp [lookupKey, SubmissionsStream.get_url_params, TallyStream.get_url_params]
  · simp [lookupKey, WorkspacesStream.get_url_params, TallyStream.get_url_params]
  · simp [lookupKey, WebhooksStream.get_url_params, TallyStream.get_url_params]
  · intro t
    simp [lookupKey, FormsStream.get_url_params, TallyStream.get_url_params]
  · intro t
    simp [lookupKey, SubmissionsStream.get_url_params, TallyStream.get_url_params]
  · intro t
    simp [lookupKey, WorkspacesStream.get_url_params, TallyStream.get_url_params]
  · intro t
    simp [lookupKey, WebhooksStream.get_url_params, TallyStream.get_url_params]
  · intro α gp cs fuel h hf
    have key : runFetch gp (mockPages cs) (Paginator.pageNumber 1) fuel =
        ((List.range' 1 (cs.length + 1)).map
          (fun k => (k, gp (if k = 1 then none else some k))), cs.flatten) :=
      pageLoop_mock_eq gp 1 cs fuel 1 h hf
    rw [key]
    dsimp only
    rw [List.map_map]
    rfl

/-- Witness for C4: with two mocked pages the parameter traces of the forms
stream omit `page` on the first request and carry `page = 2`, `page = 3` on
the next two. -/
theorem page_param_presence_witness :
    lookupKey "page" (FormsStream.get_url_params (some 2)) = some (PVal.nat 2) ∧
    (runFetch FormsStream.get_url_params (mockPages [[10], [20]])
        (Paginator.pageNumber 1) 3).1.map Prod.snd =
      [FormsStream.get_url_params none, FormsStream.get_url_params (some 2),
        FormsStream.get_url_params (some 3)] := by
  constructor
  · exact page_param_presence.2.2.2.2.1 2
  · have h := page_param_presence.2.2.2.2.2.2.2.2 Nat FormsStream.get_url_params
      [[10], [20]] 3 (by decide) (by decide)
    simpa using h

/-- C8: every forms request carries `limit = 500`; every submissions request
carries `filter = "all"` and no `limit`; every webhooks request carries
`limit = 100`; workspaces requests carry no `limit` — for any page token. -/
theorem static_query_params :
    (∀ tok : Option Nat, lookupKey "limit" (FormsStream.get_url_params tok) =
      some (PVal.nat 500)) ∧
    (∀ tok : Option Nat, lookupKey "filter" (SubmissionsStream.get_url_params tok) =
      some (PVal.str "all")) ∧
    (∀ tok : Option Nat, lookupKey "limit" (SubmissionsStream.get_url_params tok) = none) ∧
    (∀ tok : Option Nat, lookupKey "limit" (WebhooksStream.get_url_params tok) =
      some (PVal.nat 100)) ∧
    (∀ tok : Option Nat, lookupKey "limit" (WorkspacesStream.get_url_params tok) = none) := by
  refine ⟨?_, ?_, ?_, ?_, ?_⟩ <;> intro tok <;> cases tok <;>
    simp [lookupKey, FormsStream.get_url_params, SubmissionsStream.get_url_params,
      WebhooksStream.get_url_params, WorkspacesStream.get_url_params,
      TallyStream.get_url_params, FormsStream.PAGE_SIZE, WebhooksStream.PAGE_SIZE,
      SubmissionsStream.SUBMISSION_FILTER]

end TapTally

namespace TapTally

/-- Modelled from the spec: child resources repeat the fetch loop once per
parent record, filling the path template from the parent form's id. The
questions sync over a list of parent form ids: for each form id, the
resolved path and that form's fetch sequence. -/
def questionsSync {α : Type} (pages : String → Nat → List α) (fuel : Nat)
    (formIds : List String) : List (String × (List (Nat × Params) × List α)) :=
  formIds.map (fun fid =>
    (QuestionsStream.resolvePath fid,
      runFetch QuestionsStream.get_url_params (pages fid)
        QuestionsStream.get_new_paginator fuel))

/-- A sync of a single-page stream over a partition list issues one request
per partition. -/
theorem sum_singlePage_requests {α : Type} (gp : Option Nat → Params)
    (pagesOf : Partition → Nat → List α) (fuel : Nat) (parts : List Partition) :
    (parts.map (fun p =>
      (runFetch gp (pagesOf p) Paginator.singlePage fuel).1.length)).sum = parts.length := by
  induction parts with
  | nil => rfl
  | cons p parts ih =>
    have h1 : (runFetch gp (pagesOf p) Paginator.singlePage fuel).1.length = 1 := rfl
    simp only [List.map_cons, List.sum_cons, h1, ih, List.length_cons]
    omega

/-- C7: the users and invites streams do not paginate — for any response
content, each fetch sequence issues exactly one request, and a sync over any
partition list issues exactly one request per partition. -/
theorem single_request_per_partition :
    UsersStream.get_new_paginator = Paginator.singlePage ∧
    InvitesStream.get_new_paginator = Paginator.singlePage ∧
    (∀ (α : Type) (pages : Nat → List α) (fuel : Nat),
      (runFetch UsersStream.get_url_params pages UsersStream.get_new_paginator
        fuel).1.length = 1 ∧
      (runFetch InvitesStream.get_url_params pages InvitesStream.get_new_paginator
        fuel).1.length = 1) ∧
    ∀ (α : Type) (pagesOf : Partition → Nat → List α) (fuel : Nat) (parts : List Partition),
      ((parts.map (fun p => (runFetch UsersStream.get_url_params (pagesOf p)
          UsersStream.get_new_paginator fuel).1.length)).sum = parts.length ∧
       (parts.map (fun p => (runFetch InvitesStream.get_url_params (pagesOf p)
          InvitesStream.get_new_paginator fuel).1.length)).sum = parts.length) := by
  refine ⟨rfl, rfl, fun α pages fuel => ⟨rfl, rfl⟩, ?_⟩
  intro α pagesOf fuel parts
  exact ⟨sum_singlePage_requests UsersStream.get_url_params pagesOf fuel parts,
    sum_singlePage_requests InvitesStream.get_url_params pagesOf fuel parts⟩

/-- C10: the questions child stream is un-paginated — for every parent form
record it issues exactly one request, to `/forms/<formId>/questions`, with no
`page` or `limit` query parameters, and its records come from the
`$.questions[*]` pointer applied to the single response. -/
theorem questions_single_request_per_form :
    QuestionsStream.get_new_paginator = Paginator.singlePage ∧
    QuestionsStream.records_jsonpath = "$.questions[*]" ∧
    ∀ (α : Type) (pages : String → Nat → List α) (fuel : Nat) (formIds : List String),
      questionsSync pages fuel formIds =
        formIds.map (fun fid => ("/forms/" ++ fid ++ "/questions", ([(1, [])], pages fid 1))) ∧
      (questionsSync pages fuel formIds).length = formIds.length := by
  refine ⟨rfl, rfl, ?_⟩
  intro α pages fuel formIds
  constructor
  · simp [questionsSync, runFetch, QuestionsStream.get_url_params,
      TallyStream.get_url_params, QuestionsStream.resolvePath,
      QuestionsStream.get_new_paginator]
  · simp [questionsSync]

end TapTally

namespace TapTally

/-- C2: for every configured non-empty `organization_ids`, the partition
resolver performs no HTTP request and returns exactly one partition per id —
the single-key mapping over that id — preserving input order. -/
theorem configured_partitions (cfg : Config) (resp : HttpResponse)
    (h : cfg.organization_ids ≠ []) :
    partitions cfg resp =
      ([], Except.ok (cfg.organization_ids.map (fun oid => { organizationId := oid }))) ∧
    (cfg.organization_ids.map
      (fun oid => ({ organizationId := oid } : Partition))).map Partition.organizationId =
      cfg.organization_ids ∧
    (cfg.organization_ids.map
      (fun oid => ({ organizationId := oid } : Partition))).length =
      cfg.organization_ids.length := by
  cases hl : cfg.organization_ids with
  | nil => exact absurd hl h
  | cons a l =>
    refine ⟨?_, ?_, ?_⟩
    · simp [partitions, hl]
    · rw [List.map_map]
      simp [Function.comp_def]
    · simp

/-- Witness for C2 at two configured ids. -/
theorem configured_partitions_witness :
    partitions { api_key := "k", organization_ids := ["a", "b"] } { status := 200, body := [] } =
      ([], Except.ok [{ organizationId := "a" }, { organizationId := "b" }]) := by
  have h := (configured_partitions { api_key := "k", organization_ids := ["a", "b"] }
    { status := 200, body := [] } (by decide)).1
  simpa using h

/-- C3: for an empty `organization_ids`, the partition resolver issues
exactly one GET request to the fixed `/users/me` endpoint, extracts the
`organizationId` field from the response body, and returns exactly the
one-element partition sequence over that id. -/
theorem selfLookup_partitions (cfg : Config) (resp : HttpResponse) (oid : String)
    (hempty : cfg.organization_ids = [])
    (hok : 200 ≤ resp.status ∧ resp.status < 300)
    (hbody : resp.body.lookup "organizationId" = some oid) :
    partitions cfg resp = ([usersMeRequest cfg], Except.ok [{ organizationId := oid }]) ∧
    (usersMeRequest cfg).method = "GET" ∧
    (usersMeRequest cfg).url = "https://api.tally.so/users/me" := by
  refine ⟨?_, rfl, rfl⟩
  simp [partitions, hempty, raise_for_status, hok.1, hok.2, hbody]

/-- Witness for C3 at a concrete 200 response carrying an organization id. -/
theorem selfLookup_partitions_witness :
    partitions { api_key := "k", organization_ids := [] }
        { status := 200, body := [("organizationId", "org1")] } =
      ([usersMeRequest { api_key := "k", organization_ids := [] }],
        Except.ok [{ organizationId := "org1" }]) := by
  exact (selfLookup_partitions { api_key := "k", organization_ids := [] }
    { status := 200, body := [("organizationId", "org1")] } "org1" rfl (by decide) (by decide)).1

/-- C6: the `/users/me` self-lookup is the only request the resolver issues,
it carries no pagination parameters, and the transport sends it with the
stream's authenticator — the bearer token built from the `api_key`
configuration, the same authenticator every other request uses. -/
theorem selfLookup_authentication (cfg : Config) (resp : HttpResponse)
    (hempty : cfg.organization_ids = []) :
    (partitions cfg resp).1 = [usersMeRequest cfg] ∧
    (usersMeRequest cfg).auth = TallyStream.authenticator cfg ∧
    TallyStream.authenticator cfg = Auth.bearer cfg.api_key ∧
    (usersMeRequest cfg).params = [] ∧
    lookupKey "page" (usersMeRequest cfg).params = none := by
  refine ⟨?_, rfl, rfl, rfl, rfl⟩
  simp [partitions, hempty]

/-- Witness for C6 at a concrete configuration. -/
theorem selfLookup_authentication_witness :
    (partitions { api_key := "secret", organization_ids := [] }
        { status := 200, body := [] }).1 =
      [usersMeRequest { api_key := "secret", organization_ids := [] }] ∧
    (usersMeRequest { api_key := "secret", organization_ids := [] }).auth =
      Auth.bearer "secret" := by
  have h := selfLookup_authentication { api_key := "secret", organization_ids := [] }
    { status := 200, body := [] } rfl
  exact ⟨h.1, h.2.1.trans h.2.2.1⟩

/-- C9: a non-2xx `/users/me` response makes the resolver raise immediately:
the outcome is the HTTP error, no partition list is produced, and nothing is
stored in the instance's `cached_property` slot. -/
theorem selfLookup_failure (cfg : Config) (resp : HttpResponse)
    (hempty : cfg.organization_ids = [])
    (hbad : ¬(200 ≤ resp.status ∧ resp.status < 300)) :
    (partitions cfg resp).2 = Except.error (PartError.httpStatus resp.status) ∧
    cachedPartitions cfg resp none =
      ([usersMeRequest cfg], Except.error (PartError.httpStatus resp.status), none) := by
  have hp : partitions cfg resp =
      ([usersMeRequest cfg], Except.error (PartError.httpStatus resp.status)) := by
    simp [partitions, hempty, raise_for_status, hbad]
  constructor
  · rw [hp]
  · simp [cachedPartitions, hp]

/-- Witness for C9 at a 401 response. -/
theorem selfLookup_failure_witness :
    cachedPartitions { api_key := "k", organization_ids := [] }
        { status := 401, body := [] } none =
      ([usersMeRequest { api_key := "k", organization_ids := [] }],
        Except.error (PartError.httpStatus 401), none) := by
  exact (selfLookup_failure { api_key := "k", organization_ids := [] }
    { status := 401, body := [] } rfl (by decide)).2

end TapTally

namespace TapTally

/-- Counterexample to C5: with empty configured organization ids and a
healthy `/users/me` endpoint, one run over the three organization-scoped
streams created by `discover_streams` (users, invites, forms) performs three
`/users/me` lookups — one per stream instance, because `cached_property`
caches per instance — not at most one. -/
theorem org_lookup_not_shared :
    (runOrgPartitionRequests { api_key := "k", organization_ids := [] }
      { status := 200, body := [("organizationId", "org1")] }).length = 3 ∧
    ¬((runOrgPartitionRequests { api_key := "k", organization_ids := [] }
      { status := 200, body := [("organizationId", "org1")] }).length ≤ 1) := by
  decide

/-- C5 amended: the partition result is memoized per stream instance — after
a first successful resolution on an instance, a second access on that same
instance issues no request and returns the cached list — while each of the
three organization-scoped stream instances of a run resolves on its own. -/
theorem partitions_cached_per_instance (cfg : Config) (resp : HttpResponse)
    (reqs : List ReqDesc) (ps : List Partition) (st : Option (List Partition))
    (h : cachedPartitions cfg resp none = (reqs, Except.ok ps, st)) :
    st = some ps ∧ cachedPartitions cfg resp st = ([], Except.ok ps, some ps) := by
  cases hp : (partitions cfg resp).2 with
  | ok qs =>
    simp only [cachedPartitions, hp] at h
    have hqs : qs = ps := by
      have := congrArg (fun x => x.2.1) h
      simpa using this
    have hst : st = some ps := by
      have := congrArg (fun x => x.2.2) h
      simpa [hqs] using this.symm
    exact ⟨hst, by simp [hst, cachedPartitions]⟩
  | error e =>
    simp only [cachedPartitions, hp] at h
    exact absurd (congrArg (fun x => x.2.1) h) (by simp)

/-- Witness for the amended C5: a second access on the same instance after a
successful resolution issues no request. -/
theorem partitions_cached_per_instance_witness :
    cachedPartitions { api_key := "k", organization_ids := ["a"] } { status := 200, body := [] }
        (some [{ organizationId := "a" }]) =
      ([], Except.ok [{ organizationId := "a" }], some [{ organizationId := "a" }]) := by
  exact (partitions_cached_per_instance { api_key := "k", organization_ids := ["a"] }
    { status := 200, body := [] } [] [{ organizationId := "a" }]
    (some [{ organizationId := "a" }]) rfl).2

end TapTally
